import Mathlib

/-!
Verification development for the pothole ward-notification pipeline
(`notifications.py`, class `WardNotificationSystem`).

The embedding below follows the source line by line:
geographic coordinates are modelled as exact rationals, the Firestore
document store as an association list of issue documents plus a list of
ward documents (Firestore streams documents in ascending document-id
order, so a fixed list models one stable snapshot), the SMTP transport
as an oracle giving the outcome of the single send attempt, and every
store write / transport attempt is recorded in an event trace so that
ordering and counting properties can be stated.
-/

namespace WardNotification

deriving instance DecidableEq for Except

/-- A geographic point, `(lat, lng)` as exact rationals. -/
abbrev Pt := ℚ × ℚ

/-- Error raised by Shapely's `Polygon` constructor when the shell has
one or two coordinates (Python `ValueError`); `find_ward_for_location`
does not catch it, `process_new_issue` catches it generically. -/
inductive GeoError where
  | invalidPolygon
deriving DecidableEq

/-- A ward document, as seeded by `setup_ward_collection`:
`ward_id`, `name`, `officer_email`, `boundaries` (polygon vertices,
implicitly closed), `area_sq_meters`. -/
structure Ward where
  ward_id : String
  name : String
  officer_email : String
  boundaries : List Pt
  area_sq_meters : ℚ
deriving DecidableEq

/-- An issue document (typed view of the Firestore `issues` document,
fields as read and written by `process_new_issue`).  `created_at` is
kept as its formatted string; `notification_time_set` records that the
`notification_time` field was written with `SERVER_TIMESTAMP`. -/
structure Issue where
  latitude : ℚ
  longitude : ℚ
  category : String
  description : String
  created_at : String
  ward_id : Option String
  ward_name : Option String
  ward_assigned : Bool
  notification_sent : Bool
  notification_email_sent : Option Bool
  notification_time_set : Bool
deriving DecidableEq

/-- The Firestore state visible to the system: the `ward` collection
(in stream order) and the `issues` collection (document id ↦ document). -/
structure Store where
  wards : List Ward
  issues : List (String × Issue)
deriving DecidableEq

/-- `db.collection('issues').document(id).get()`. -/
def lookupIssue : List (String × Issue) → String → Option Issue
  | [], _ => none
  | p :: rest, id => if p.1 == id then some p.2 else lookupIssue rest id

/-- `issue_ref.update(...)`: one atomic all-or-nothing write of the given
document (Firestore `update` on a single document is atomic). -/
def writeIssue : List (String × Issue) → String → Issue → List (String × Issue)
  | [], _, _ => []
  | p :: rest, id, i =>
    if p.1 == id then (p.1, i) :: writeIssue rest id i
    else p :: writeIssue rest id i

def getIssue (s : Store) (issue_id : String) : Option Issue :=
  lookupIssue s.issues issue_id

def setIssue (s : Store) (issue_id : String) (i : Issue) : Store :=
  { s with issues := writeIssue s.issues issue_id i }

/-! ### Geometry: Shapely `Polygon(coords).contains(Point(lat, long))`

The source delegates containment to the Shapely library.  The model
below is Shapely's documented semantics for `contains` on a point:
the point must lie in the *interior* of the polygon — points of the
boundary (edges and vertices) are not contained.  Interior membership
is the standard even–odd ray-crossing test, made exact over ℚ. -/

/-- `p` lies on the closed segment from `a` to `b` (exact arithmetic). -/
def onSegment (p a b : Pt) : Bool :=
  decide ((b.1 - a.1) * (p.2 - a.2) = (b.2 - a.2) * (p.1 - a.1)
    ∧ min a.1 b.1 ≤ p.1 ∧ p.1 ≤ max a.1 b.1
    ∧ min a.2 b.2 ≤ p.2 ∧ p.2 ≤ max a.2 b.2)

/-- The edges of the polygon on vertex list `poly`, the closing edge
from the last vertex back to the first included. -/
def polygonEdges (poly : List Pt) : List (Pt × Pt) :=
  match poly with
  | [] => []
  | v :: _ => poly.zip (poly.tail ++ [v])

/-- `p` lies on the boundary of the polygon. -/
def onBoundary (p : Pt) (poly : List Pt) : Bool :=
  (polygonEdges poly).any (fun e => onSegment p e.1 e.2)

/-- The horizontal ray from `p` in the `+x` direction crosses the open
edge from `a` to `b` (standard even–odd crossing condition). -/
def rayCrosses (p a b : Pt) : Bool :=
  decide (((a.2 ≤ p.2 ∧ p.2 < b.2) ∨ (b.2 ≤ p.2 ∧ p.2 < a.2))
    ∧ p.1 < a.1 + (p.2 - a.2) * (b.1 - a.1) / (b.2 - a.2))

/-- Even–odd test: `p` is in the region enclosed by the polygon. -/
def rayCastInside (p : Pt) (poly : List Pt) : Bool :=
  ((polygonEdges poly).countP (fun e => rayCrosses p e.1 e.2)) % 2 == 1

/-- Shapely `polygon.contains(point)`: strict interior membership —
boundary points are not contained. -/
def shapely_contains (poly : List Pt) (p : Pt) : Bool :=
  !onBoundary p poly && rayCastInside p poly

/-- `WardNotificationSystem.point_in_polygon(lat, long, boundaries)`:
builds `Point(lat, long)` and `Polygon([(b.lat, b.lng) for b in bs])`
and returns `polygon.contains(point)`.  Shapely's constructor accepts
an empty coordinate list (the empty polygon, which contains nothing)
but raises `ValueError` for a shell of one or two coordinates; the
Python method does not catch that error, so it is surfaced here. -/
def point_in_polygon (lat long : ℚ) (boundaries : List Pt) : Except GeoError Bool :=
  match boundaries with
  | [] => .ok false
  | [_] => .error .invalidPolygon
  | [_, _] => .error .invalidPolygon
  | v1 :: v2 :: v3 :: rest => .ok (shapely_contains (v1 :: v2 :: v3 :: rest) (lat, long))

/-- `WardNotificationSystem.find_ward_for_location(lat, long)`: streams
the `ward` collection (here: the list `wards`, in stream order) and
returns the first ward whose boundaries contain the point, or `none`.
An uncaught error from `point_in_polygon` aborts the whole loop. -/
def find_ward_for_location : List Ward → ℚ → ℚ → Except GeoError (Option Ward)
  | [], _, _ => .ok none
  | w :: rest, lat, long =>
    match point_in_polygon lat long w.boundaries with
    | .error e => .error e
    | .ok true => .ok (some w)
    | .ok false => find_ward_for_location rest lat long

/-! ### Notification dispatch and the processing pipeline -/

/-- Outcome of the single SMTP session
(`SMTP(...); starttls; login; send_message`): the Python code either
returns normally or raises, with the exception text as the reason. -/
abbrev TransportResult := Except String Unit

/-- Observable effects of one `process_new_issue` invocation, in order:
Firestore document updates (each one atomic) and transport attempts. -/
inductive Event where
  | updateNoCoverage (issue_id : String)
  | updateWardAssignment (issue_id ward_id ward_name : String)
  | transportCall (recipient : String)
  | updateNotificationStatus (issue_id : String) (sent : Bool)
deriving DecidableEq

/-- Number of transport attempts in a trace. -/
def transportCalls (evs : List Event) : Nat :=
  evs.countP (fun e => match e with | .transportCall _ => true | _ => false)

/-- Subject line built by `send_email_notification`. -/
def email_subject (i : Issue) (w : Ward) : String :=
  "New Issue Reported in " ++ w.name ++ " - " ++ i.category

/-- HTML body built by `send_email_notification` (field content only;
markup elided). -/
def email_body (i : Issue) (w : Ward) : String :=
  "Ward: " ++ w.name ++ " (ID: " ++ w.ward_id ++ ") Category: " ++ i.category
    ++ " Description: " ++ i.description
    ++ " Location: " ++ toString i.latitude ++ ", " ++ toString i.longitude
    ++ " Reported on: " ++ i.created_at

/-- `WardNotificationSystem.send_email_notification`: the whole body is
wrapped in `try/except Exception`, so the method never raises; it makes
exactly one transport attempt and returns `True` on success, `False` on
any caught fault (the reason is only logged).  Returns the boolean
result together with the emitted trace. -/
def send_email_notification (transport : TransportResult)
    (officer_email : String) : Bool × List Event :=
  match transport with
  | .ok _ => (true, [.transportCall officer_email])
  | .error _ => (false, [.transportCall officer_email])

/-- `WardNotificationSystem.process_new_issue(issue_id)`.  Returns the
Python boolean result, the store after the invocation, and the event
trace.  The outer `try/except Exception` turns any uncaught error from
`find_ward_for_location` into a plain `False` with no further effects. -/
def process_new_issue (store : Store) (transport : TransportResult)
    (issue_id : String) : Bool × Store × List Event :=
  match getIssue store issue_id with
  | none => (false, store, [])
  | some issue =>
    match find_ward_for_location store.wards issue.latitude issue.longitude with
    | .error _ => (false, store, [])
    | .ok none =>
      let issue1 := { issue with ward_assigned := false, notification_sent := false }
      (false, setIssue store issue_id issue1, [.updateNoCoverage issue_id])
    | .ok (some w) =>
      let issue1 :=
        { issue with
          ward_id := some w.ward_id
          ward_name := some w.name
          ward_assigned := true }
      let store1 := setIssue store issue_id issue1
      let sent := (send_email_notification transport w.officer_email).1
      let issue2 :=
        { issue1 with
          notification_sent := sent
          notification_email_sent := some sent
          notification_time_set := true }
      let store2 := setIssue store1 issue_id issue2
      (true, store2,
        [.updateWardAssignment issue_id w.ward_id w.name]
          ++ (send_email_notification transport w.officer_email).2
          ++ [.updateNotificationStatus issue_id sent])

/-! ### Sample data (`setup_ward_collection`) -/

/-- The first sample ward seeded by `setup_ward_collection`. -/
def central_ward : Ward where
  ward_id := "ward001"
  name := "Central Ward"
  officer_email := "aryaniaf2608@gmail.com"
  boundaries := [(12.9716, 77.5946), (12.9796, 77.5946),
                 (12.9796, 77.6046), (12.9716, 77.6046)]
  area_sq_meters := 120000

/-- The second sample ward seeded by `setup_ward_collection`. -/
def north_ward : Ward where
  ward_id := "ward002"
  name := "North Ward"
  officer_email := "nikhilrrvk@gmail.com"
  boundaries := [(13.0016, 77.5946), (13.0096, 77.5946),
                 (13.0096, 77.6046), (13.0016, 77.6046)]
  area_sq_meters := 140000

/-- The seeded `ward` collection in Firestore stream order (documents
are keyed by `ward_id`, streamed in ascending document-id order). -/
def sample_wards : List Ward := [central_ward, north_ward]

/-- `WardNotificationSystem.setup_ward_collection`: seeds the two sample
wards when the `ward` collection is empty, otherwise leaves it alone. -/
def setup_ward_collection (s : Store) : Store :=
  if s.wards.isEmpty then { s with wards := sample_wards } else s

end WardNotification

namespace WardNotification

/-! ### Test fixtures: concrete stores and issues -/

/-- An unprocessed issue at `lat=12.9756, lng=77.5996` (the documented
point inside Central Ward, from `test_with_sample_issue`). -/
def issue1 : Issue where
  latitude := 12.9756
  longitude := 77.5996
  category := "Road Damage"
  description := "Large pothole causing traffic issues"
  created_at := "2025-01-01 12:00:00"
  ward_id := none
  ward_name := none
  ward_assigned := false
  notification_sent := false
  notification_email_sent := none
  notification_time_set := false

/-- Store after `setup_ward_collection` seeded the empty ward
collection, holding one unprocessed issue `i1`. -/
def store9 : Store :=
  setup_ward_collection { wards := [], issues := [("i1", issue1)] }

/-- `issue1` after a fully successful processing pass: terminal for both
assignment and notification. -/
def processed_issue1 : Issue :=
  { issue1 with
    ward_id := some "ward001"
    ward_name := some "Central Ward"
    ward_assigned := true
    notification_sent := true
    notification_email_sent := some true
    notification_time_set := true }

/-- Store holding the seeded wards and the already-fully-processed
issue `i1`. -/
def store_processed : Store :=
  { wards := sample_wards, issues := [("i1", processed_issue1)] }

/-- A malformed ward document: its boundary has only 2 vertices. -/
def bad_ward : Ward where
  ward_id := "ward000"
  name := "Broken Ward"
  officer_email := "broken@example.com"
  boundaries := [(0, 0), (1, 0)]
  area_sq_meters := 0

/-- A well-formed triangular ward containing the point `(1, 1)`. -/
def tri_ward : Ward where
  ward_id := "ward009"
  name := "Triangle Ward"
  officer_email := "tri@example.com"
  boundaries := [(0, 0), (4, 0), (0, 4)]
  area_sq_meters := 8

/-- An issue at `(50, 50)`, outside every fixture polygon, whose flags
are already set (so a missing write is observable). -/
def issueX : Issue :=
  { issue1 with latitude := 50, longitude := 50,
                ward_assigned := true, notification_sent := true }

/-- Store whose only ward is the malformed `bad_ward`, holding `ix`. -/
def storeBad : Store :=
  { wards := [bad_ward], issues := [("ix", issueX)] }

/-- First of two overlapping square wards, both containing `(3, 3)`. -/
def wardA : Ward where
  ward_id := "wardA"
  name := "Overlap A"
  officer_email := "a@example.com"
  boundaries := [(0, 0), (4, 0), (4, 4), (0, 4)]
  area_sq_meters := 16

/-- Second of two overlapping square wards, both containing `(3, 3)`. -/
def wardB : Ward where
  ward_id := "wardB"
  name := "Overlap B"
  officer_email := "b@example.com"
  boundaries := [(2, 2), (6, 2), (6, 6), (2, 6)]
  area_sq_meters := 16

/-- An unprocessed issue at `(0, 0)`, outside both seeded wards. -/
def issue_out : Issue :=
  { issue1 with latitude := 0, longitude := 0 }

/-- Store with the seeded wards and the out-of-coverage issue `i0`. -/
def store_out : Store :=
  { wards := sample_wards, issues := [("i0", issue_out)] }

/-- A triangle used for the boundary-point check. -/
def tri0 : List Pt := [(0, 0), (2, 0), (0, 2)]

/-! ### Shared helper lemmas -/

/-- Writing a present document and reading it back yields the write. -/
theorem lookup_write (l : List (String × Issue)) (id : String) (i j : Issue)
    (h : lookupIssue l id = some i) :
    lookupIssue (writeIssue l id j) id = some j := by
  induction l with
  | nil => simp [lookupIssue] at h
  | cons p rest ih =>
    cases hp : (p.1 == id) with
    | true => simp [lookupIssue, writeIssue, hp]
    | false =>
      simp only [lookupIssue, writeIssue, hp, Bool.false_eq_true, if_false] at h ⊢
      exact ih h

/-- Store-level form of `lookup_write`. -/
theorem getIssue_setIssue (s : Store) (id : String) (i j : Issue)
    (h : getIssue s id = some i) :
    getIssue (setIssue s id j) id = some j :=
  lookup_write s.issues id i j h

/-- If no ward's polygon contains the point (each check returning a
clean `false`), the lookup returns `none`. -/
theorem find_ward_none_of_outside (wards : List Ward) (lat lng : ℚ)
    (h : ∀ w ∈ wards, point_in_polygon lat lng w.boundaries = .ok false) :
    find_ward_for_location wards lat lng = .ok none := by
  induction wards with
  | nil => rfl
  | cons w rest ih =>
    have hw := h w (by simp)
    have hrest := ih (fun u hu => h u (by simp [hu]))
    simp [find_ward_for_location, hw, hrest]

/-- A boundary list of one or two vertices makes Shapely's constructor
raise, surfaced as `InvalidPolygon`. -/
theorem point_in_polygon_one_or_two (lat lng : ℚ) (bs : List Pt)
    (h : bs.length = 1 ∨ bs.length = 2) :
    point_in_polygon lat lng bs = .error .invalidPolygon := by
  rcases bs with _ | ⟨a, _ | ⟨b, _ | ⟨c, t⟩⟩⟩
  · simp at h
  · rfl
  · rfl
  · simp at h

/-- An error from the first ward's containment check aborts the whole
lookup. -/
theorem find_ward_error_head (w : Ward) (rest : List Ward) (lat lng : ℚ)
    (h : point_in_polygon lat lng w.boundaries = .error .invalidPolygon) :
    find_ward_for_location (w :: rest) lat lng = .error .invalidPolygon := by
  simp [find_ward_for_location, h]

/-! ### Concrete containment evaluations (exact arithmetic) -/

/-- The documented test point is strictly inside Central Ward. -/
theorem pt_central_in :
    point_in_polygon 12.9756 77.5996 central_ward.boundaries = .ok true := by
  with_unfolding_all decide

/-- `(0, 0)` is outside Central Ward. -/
theorem pt_central_out :
    point_in_polygon 0 0 central_ward.boundaries = .ok false := by
  with_unfolding_all decide

/-- `(0, 0)` is outside North Ward. -/
theorem pt_north_out :
    point_in_polygon 0 0 north_ward.boundaries = .ok false := by
  with_unfolding_all decide

/-- `(1, 1)` is strictly inside the triangle ward. -/
theorem pt_tri_in :
    point_in_polygon 1 1 tri_ward.boundaries = .ok true := by
  with_unfolding_all decide

/-- `(3, 3)` is strictly inside overlap ward A. -/
theorem pt_wardA_in :
    point_in_polygon 3 3 wardA.boundaries = .ok true := by
  with_unfolding_all decide

/-- `(3, 3)` is strictly inside overlap ward B. -/
theorem pt_wardB_in :
    point_in_polygon 3 3 wardB.boundaries = .ok true := by
  with_unfolding_all decide

/-- Ward resolution of the documented test point over the seeded wards. -/
theorem fw_central :
    find_ward_for_location sample_wards 12.9756 77.5996 = .ok (some central_ward) := by
  simp [sample_wards, find_ward_for_location, pt_central_in]

/-- Ward resolution of `(0, 0)` over the seeded wards finds nothing. -/
theorem fw_out :
    find_ward_for_location sample_wards 0 0 = .ok none := by
  simp [sample_wards, find_ward_for_location, pt_central_out, pt_north_out]

end WardNotification

namespace WardNotification

/-! ### Claim C1 — idempotence of `process` -/

/-- C1 counterexample: the issue `i1` in `store_processed` is terminal
for both assignment and notification, yet re-invoking `process_new_issue`
on it performs one more transport call (not zero): the code has no
idempotency check. -/
theorem process_second_invocation_resends :
    processed_issue1.ward_assigned = true
    ∧ processed_issue1.notification_sent = true
    ∧ transportCalls (process_new_issue store_processed (.ok ()) "i1").2.2 = 1 := by
  refine ⟨rfl, rfl, ?_⟩
  simp [process_new_issue, store_processed, getIssue, lookupIssue, processed_issue1, issue1,
    fw_central, send_email_notification, transportCalls]

/-- C1 (amended): `process_new_issue` never consults the stored
assignment/notification flags; whenever the issue exists and a ward is
resolved — in particular when the issue is already terminal for both
assignment and notification — the invocation performs exactly one more
transport call. -/
theorem process_resends_whenever_ward_found (store : Store) (t : TransportResult)
    (id : String) (i : Issue) (w : Ward)
    (hget : getIssue store id = some i)
    (_hterm : i.ward_assigned = true ∧ i.notification_sent = true)
    (hfind : find_ward_for_location store.wards i.latitude i.longitude = .ok (some w)) :
    transportCalls (process_new_issue store t id).2.2 = 1 := by
  cases t <;>
    simp [process_new_issue, hget, hfind, send_email_notification, transportCalls]

/-- C1 witness: the amended statement evaluated on the fully-processed
fixture issue with a failing transport. -/
theorem process_resends_whenever_ward_found_witness :
    transportCalls (process_new_issue store_processed (.error "smtp refused") "i1").2.2 = 1 :=
  process_resends_whenever_ward_found store_processed (.error "smtp refused") "i1"
    processed_issue1 central_ward
    (by simp [store_processed, getIssue, lookupIssue])
    ⟨rfl, rfl⟩
    (by simp [store_processed, processed_issue1, issue1, fw_central])

/-! ### Claim C2 — malformed ward boundaries -/

/-- C2 counterexample: with a 2-vertex ward listed before a well-formed
ward that contains the query point, the lookup aborts with
`InvalidPolygon` instead of skipping the bad ward and returning the
match; and an empty (0-vertex, hence fewer than 3) boundary silently
yields `false` rather than signalling. -/
theorem invalid_polygon_aborts_cex :
    point_in_polygon 1 1 tri_ward.boundaries = .ok true
    ∧ point_in_polygon 1 1 ([] : List Pt) = .ok false
    ∧ find_ward_for_location [bad_ward, tri_ward] 1 1 = .error .invalidPolygon :=
  ⟨pt_tri_in, rfl, by simp [find_ward_for_location, bad_ward, point_in_polygon]⟩

/-- C2 (amended): a ward boundary with exactly 1 or 2 vertices makes
`point_in_polygon` signal `InvalidPolygon`, and when such a ward is
reached during `find_ward_for_location` the error aborts the whole
lookup (remaining wards are not consulted) instead of merely excluding
that ward. -/
theorem invalid_polygon_signals_and_aborts (w : Ward) (rest : List Ward) (lat lng : ℚ)
    (hlen : w.boundaries.length = 1 ∨ w.boundaries.length = 2) :
    point_in_polygon lat lng w.boundaries = .error .invalidPolygon
    ∧ find_ward_for_location (w :: rest) lat lng = .error .invalidPolygon := by
  have h1 := point_in_polygon_one_or_two lat lng w.boundaries hlen
  exact ⟨h1, find_ward_error_head w rest lat lng h1⟩

/-- C2 witness: the amended statement evaluated on the 2-vertex fixture
ward followed by a well-formed ward. -/
theorem invalid_polygon_signals_and_aborts_witness :
    point_in_polygon 1 1 bad_ward.boundaries = .error .invalidPolygon
    ∧ find_ward_for_location [bad_ward, tri_ward] 1 1 = .error .invalidPolygon :=
  invalid_polygon_signals_and_aborts bad_ward [tri_ward] 1 1 (by simp [bad_ward])

/-! ### Claim C3 — discriminated result of `process` -/

/-- C3 counterexample: a successful notification (`Notified`) and a
failed one (`NotificationFailed`) return the identical value `True` to
the caller, although the persisted outcomes differ — the outcomes are
not distinguishable from the return value. -/
theorem process_outcomes_indistinguishable_cex :
    (process_new_issue store9 (.ok ()) "i1").1
      = (process_new_issue store9 (.error "connection refused") "i1").1
    ∧ (getIssue (process_new_issue store9 (.ok ()) "i1").2.1 "i1").map
        Issue.notification_sent = some true
    ∧ (getIssue (process_new_issue store9 (.error "connection refused") "i1").2.1 "i1").map
        Issue.notification_sent = some false := by
  refine ⟨?_, ?_, ?_⟩ <;>
    simp [process_new_issue, store9, setup_ward_collection, getIssue, lookupIssue,
      issue1, fw_central, send_email_notification, setIssue, writeIssue]

/-- C3 (amended): `process_new_issue` reports only an undiscriminated
boolean: a missing issue returns `False` with no state change and no
events; a resolved ward returns `True` whether the notification is sent
or fails; no coverage returns `False`; a dependency failure (an error
escaping the ward lookup) also returns `False` with no state change —
so `IssueNotFound`, `NoCoverage` and `DependencyFailure` share one
return value, as do `Notified` and `NotificationFailed`. -/
theorem process_returns_plain_boolean (store : Store) (t : TransportResult) (id : String) :
    (getIssue store id = none → process_new_issue store t id = (false, store, []))
    ∧ (∀ i, getIssue store id = some i → ∀ w,
        find_ward_for_location store.wards i.latitude i.longitude = .ok (some w) →
        (process_new_issue store t id).1 = true)
    ∧ (∀ i, getIssue store id = some i →
        find_ward_for_location store.wards i.latitude i.longitude = .ok none →
        (process_new_issue store t id).1 = false)
    ∧ (∀ i, getIssue store id = some i → ∀ e,
        find_ward_for_location store.wards i.latitude i.longitude = .error e →
        process_new_issue store t id = (false, store, [])) := by
  refine ⟨?_, ?_, ?_, ?_⟩
  · intro h; simp [process_new_issue, h]
  · intro i hi w hw; cases t <;> simp [process_new_issue, hi, hw, send_email_notification]
  · intro i hi hw; simp [process_new_issue, hi, hw]
  · intro i hi e he; simp [process_new_issue, hi, he]

/-- C3 witness: the amended statement evaluated on a missing issue id
and on the fixture issue with a failing transport. -/
theorem process_returns_plain_boolean_witness :
    process_new_issue store9 (.ok ()) "missing" = (false, store9, [])
    ∧ (process_new_issue store9 (.error "connection refused") "i1").1 = true :=
  ⟨(process_returns_plain_boolean store9 (.ok ()) "missing").1
      (by simp [store9, setup_ward_collection, getIssue, lookupIssue]),
   (process_returns_plain_boolean store9 (.error "connection refused") "i1").2.1 issue1
      (by simp [store9, setup_ward_collection, getIssue, lookupIssue]) central_ward
      (by simp [store9, setup_ward_collection, issue1, fw_central])⟩

/-! ### Claim C4 — assignment persisted atomically before notification -/

/-- Helper: the full shape of a `process_new_issue` invocation in which
a ward is resolved: one atomic assignment update, then the transport
attempt, then the notification-status update. -/
theorem process_ward_branch (store : Store) (t : TransportResult) (id : String)
    (i : Issue) (w : Ward)
    (hget : getIssue store id = some i)
    (hfind : find_ward_for_location store.wards i.latitude i.longitude = .ok (some w)) :
    process_new_issue store t id =
      (true,
       setIssue
         (setIssue store id
           { i with
             ward_id := some w.ward_id
             ward_name := some w.name
             ward_assigned := true })
         id
         { i with
           ward_id := some w.ward_id
           ward_name := some w.name
           ward_assigned := true
           notification_sent := (send_email_notification t w.officer_email).1
           notification_email_sent := some (send_email_notification t w.officer_email).1
           notification_time_set := true },
       [Event.updateWardAssignment id w.ward_id w.name,
        Event.transportCall w.officer_email,
        Event.updateNotificationStatus id (send_email_notification t w.officer_email).1]) := by
  cases t <;> simp [process_new_issue, hget, hfind, send_email_notification]

/-- C4: whenever a ward is resolved, the event trace is exactly the
single atomic assignment update, strictly followed by the one transport
call, followed by the notification-status update; and the final issue
record has `ward_assigned = true` for every transport outcome,
including failures. -/
theorem ward_assignment_persisted_before_transport (store : Store) (t : TransportResult)
    (id : String) (i : Issue) (w : Ward)
    (hget : getIssue store id = some i)
    (hfind : find_ward_for_location store.wards i.latitude i.longitude = .ok (some w)) :
    (process_new_issue store t id).2.2 =
      [Event.updateWardAssignment id w.ward_id w.name,
       Event.transportCall w.officer_email,
       Event.updateNotificationStatus id (send_email_notification t w.officer_email).1]
    ∧ (getIssue (process_new_issue store t id).2.1 id).map Issue.ward_assigned = some true := by
  rw [process_ward_branch store t id i w hget hfind]
  refine ⟨rfl, ?_⟩
  rw [getIssue_setIssue _ _ _ _ (getIssue_setIssue _ _ _ _ hget)]
  simp

/-- C4 witness: the statement evaluated on the fixture store with a
failing transport — the assignment update precedes the transport call
and `ward_assigned` ends up `true` although the notification failed. -/
theorem ward_assignment_persisted_before_transport_witness :
    (process_new_issue store9 (.error "smtp refused") "i1").2.2 =
      [Event.updateWardAssignment "i1" central_ward.ward_id central_ward.name,
       Event.transportCall central_ward.officer_email,
       Event.updateNotificationStatus "i1"
         (send_email_notification (.error "smtp refused") central_ward.officer_email).1]
    ∧ (getIssue (process_new_issue store9 (.error "smtp refused") "i1").2.1 "i1").map
        Issue.ward_assigned = some true :=
  ward_assignment_persisted_before_transport store9 (.error "smtp refused") "i1"
    issue1 central_ward
    (by simp [store9, setup_ward_collection, getIssue, lookupIssue])
    (by simp [store9, setup_ward_collection, issue1, fw_central])

end WardNotification

namespace WardNotification

/-! ### Claim C5 — the NoCoverage terminal outcome -/

/-- C5 counterexample: issue `ix` sits at `(50, 50)`, inside no ward
polygon, but because the only ward's 2-vertex boundary raises during
the lookup, `process_new_issue` persists nothing at all — the flags
stay `true` and the event trace is empty — instead of persisting
`ward_assigned = false, notification_sent = false`. -/
theorem no_coverage_flags_not_persisted_cex :
    issueX.ward_assigned = true
    ∧ issueX.notification_sent = true
    ∧ (getIssue (process_new_issue storeBad (.ok ()) "ix").2.1 "ix").map
        Issue.ward_assigned = some true
    ∧ (getIssue (process_new_issue storeBad (.ok ()) "ix").2.1 "ix").map
        Issue.notification_sent = some true
    ∧ (process_new_issue storeBad (.ok ()) "ix").2.2 = [] := by
  refine ⟨rfl, rfl, ?_, ?_, ?_⟩ <;>
    simp [process_new_issue, storeBad, getIssue, lookupIssue, issueX, issue1,
      find_ward_for_location, bad_ward, point_in_polygon]

/-- C5 (amended): for an issue whose coordinates every ward's
containment test cleanly rejects (each check returns `false` rather
than raising), `process_new_issue` reaches the NoCoverage outcome:
result `False`, the issue persisted with `ward_assigned = false` and
`notification_sent = false`, and zero transport calls. -/
theorem no_coverage_persists_flags (store : Store) (t : TransportResult) (id : String)
    (i : Issue)
    (hget : getIssue store id = some i)
    (hout : ∀ w ∈ store.wards, point_in_polygon i.latitude i.longitude w.boundaries = .ok false) :
    (process_new_issue store t id).1 = false
    ∧ getIssue (process_new_issue store t id).2.1 id =
        some { i with ward_assigned := false, notification_sent := false }
    ∧ transportCalls (process_new_issue store t id).2.2 = 0 := by
  have hfw := find_ward_none_of_outside store.wards i.latitude i.longitude hout
  refine ⟨?_, ?_, ?_⟩
  · simp [process_new_issue, hget, hfw]
  · simp only [process_new_issue, hget, hfw]
    exact getIssue_setIssue store id i _ hget
  · simp [process_new_issue, hget, hfw, transportCalls]

/-- C5 witness: the amended statement evaluated on the seeded wards and
an issue at `(0, 0)`, outside both ward polygons. -/
theorem no_coverage_persists_flags_witness :
    (process_new_issue store_out (.ok ()) "i0").1 = false
    ∧ getIssue (process_new_issue store_out (.ok ()) "i0").2.1 "i0" =
        some { issue_out with ward_assigned := false, notification_sent := false }
    ∧ transportCalls (process_new_issue store_out (.ok ()) "i0").2.2 = 0 :=
  no_coverage_persists_flags store_out (.ok ()) "i0" issue_out
    (by simp [store_out, getIssue, lookupIssue])
    (by
      intro w hw
      simp [store_out, sample_wards] at hw
      rcases hw with h | h <;> subst h <;>
        simp [issue_out, issue1, pt_central_out, pt_north_out])

/-! ### Claim C6 — deterministic first-match tie-break -/

/-- C6: the lookup evaluates the ward list in its (stable, stream-order)
sequence and returns the first ward whose polygon contains the point;
since the embedded lookup is a pure function of the ward list and the
point, repeated calls on the same snapshot necessarily return this same
winner — in particular a second overlapping ward later in the order
never wins. -/
theorem find_ward_first_match_wins (pre post : List Ward) (w : Ward) (lat lng : ℚ)
    (hpre : ∀ u ∈ pre, point_in_polygon lat lng u.boundaries = .ok false)
    (hw : point_in_polygon lat lng w.boundaries = .ok true) :
    find_ward_for_location (pre ++ w :: post) lat lng = .ok (some w) := by
  induction pre with
  | nil => simp [find_ward_for_location, hw]
  | cons u us ih =>
    have hu := hpre u (by simp)
    have hrest := ih (fun v hv => hpre v (by simp [hv]))
    simp [find_ward_for_location, hu, hrest]

/-- C6 witness: two overlapping square wards both contain `(3, 3)`; the
first in iteration order wins. -/
theorem find_ward_first_match_wins_witness :
    point_in_polygon 3 3 wardA.boundaries = .ok true
    ∧ point_in_polygon 3 3 wardB.boundaries = .ok true
    ∧ find_ward_for_location [wardA, wardB] 3 3 = .ok (some wardA) :=
  ⟨pt_wardA_in, pt_wardB_in,
    find_ward_first_match_wins [] [wardB] wardA 3 3 (by simp) pt_wardA_in⟩

/-! ### Claim C7 — empty ward set -/

/-- C7: over an empty ward set the lookup returns `none` (the
no-coverage outcome) for every point, and in particular never signals
an error. -/
theorem find_ward_empty_ward_set (lat lng : ℚ) :
    find_ward_for_location [] lat lng = .ok none := rfl

/-! ### Claim C8 — dispatcher containment of transport faults -/

/-- C8: `send_email_notification` is total (the whole Python body sits
inside `try/except Exception`, so nothing escapes its boundary), makes
exactly one transport attempt per invocation — it never retries — and
returns `True` exactly when the transport attempt succeeded, `False`
when the fault was caught. -/
theorem dispatcher_never_raises_one_transport_call (t : TransportResult) (contact : String) :
    transportCalls (send_email_notification t contact).2 = 1
    ∧ ((send_email_notification t contact).1 = true ↔ t = .ok ()) := by
  cases t with
  | ok u => cases u; simp [send_email_notification, transportCalls]
  | error r => simp [send_email_notification, transportCalls]

/-! ### Claim C9 — end-to-end Central Ward scenario -/

/-- C9: an issue at `lat=12.9756, lng=77.5996` against the seeded ward
collection resolves to Central Ward (`ward_id = "ward001"`); for every
transport outcome `process_new_issue` returns `True`, persists
`ward_id = "ward001"` and `ward_assigned = true`, and the persisted
`notification_sent` mirrors the transport outcome (`Notified` on
success, `NotificationFailed` on failure). -/
theorem central_ward_end_to_end (t : TransportResult) :
    store9.wards = sample_wards
    ∧ find_ward_for_location store9.wards issue1.latitude issue1.longitude
        = .ok (some central_ward)
    ∧ central_ward.ward_id = "ward001"
    ∧ (process_new_issue store9 t "i1").1 = true
    ∧ (getIssue (process_new_issue store9 t "i1").2.1 "i1").map Issue.ward_id
        = some (some "ward001")
    ∧ (getIssue (process_new_issue store9 t "i1").2.1 "i1").map Issue.ward_assigned
        = some true
    ∧ (getIssue (process_new_issue store9 t "i1").2.1 "i1").map Issue.notification_sent
        = some (send_email_notification t central_ward.officer_email).1 := by
  refine ⟨by simp [store9, setup_ward_collection],
    by simp [store9, setup_ward_collection, issue1, fw_central], rfl, ?_, ?_, ?_, ?_⟩ <;>
    cases t <;>
      simp [process_new_issue, store9, setup_ward_collection, getIssue, lookupIssue, issue1,
        fw_central, send_email_notification, setIssue, writeIssue, central_ward]

/-! ### Claim C10 — boundary points are uniformly outside -/

/-- C10: for every polygon with at least 3 vertices and every point
lying exactly on one of its edges or vertices, `point_in_polygon`
returns `false` — the modelled Shapely `contains` is strict interior
membership, so boundary points are uniformly treated as outside. -/
theorem boundary_points_not_contained (lat lng : ℚ) (bs : List Pt)
    (hlen : 3 ≤ bs.length) (hb : onBoundary (lat, lng) bs = true) :
    point_in_polygon lat lng bs = .ok false := by
  rcases bs with _ | ⟨a, _ | ⟨b, _ | ⟨c, t⟩⟩⟩
  · simp at hlen
  · simp at hlen
  · simp at hlen
  · simp [point_in_polygon, shapely_contains, hb]

/-- C10 witness: the midpoint `(1, 0)` of a triangle edge is on the
boundary and is reported as not contained. -/
theorem boundary_points_not_contained_witness :
    3 ≤ tri0.length
    ∧ onBoundary (1, 0) tri0 = true
    ∧ point_in_polygon 1 0 tri0 = .ok false :=
  ⟨by simp [tri0], by with_unfolding_all decide,
    boundary_points_not_contained 1 0 tri0 (by simp [tri0]) (by with_unfolding_all decide)⟩

end WardNotification
